import Mathlib

/-!
Verification of the Todoist MCP server (Cloudflare Workers deployment).

This development shallowly embeds the two source files of the repository:
the `TodoistClient` HTTP binding (`TodoistApiClient.ts`) and the MCP tool
registration and handler code (`index.ts`, class `TodoistMCP`).

Modelling conventions:
- JavaScript values flowing into request bodies and query strings are
  modelled by the inductive `Json`, with an explicit `undefined`
  constructor so that "key present with undefined value" and "key absent"
  can both be expressed, and JS truthiness is `jsTruthy`.
- `fetch` is external: client operations are modelled as an abstract
  function from a `ClientOp` (the method, path and payload the code
  builds) to `Except String Json` (the parsed payload, or the message of
  the `Error` the client throws).  `handleResponse` and `moveTask` embed
  the client's own response handling given the transport outcome.
- `JSON.stringify` is a platform builtin, not repository code, so every
  definition that serializes is parameterized by an abstract
  `strf : Json → String`.
- Each tool handler becomes a total Lean function returning the
  `ToolResult` envelope together with the list of client operations it
  performed (the source's try/catch totality is the totality of the
  function).
-/

/-- A JavaScript/JSON value as it appears in request bodies, query
parameter records and parsed responses.  `undefined` is JS `undefined`. -/
inductive Json where
  | null
  | undefined
  | str (s : String)
  | num (n : Int)
  | bool (b : Bool)
  | arr (elems : List Json)
  | obj (fields : List (String × Json))

/-- JavaScript truthiness of a value (`if (value)`). -/
def jsTruthy : Json → Bool
  | Json.null => false
  | Json.undefined => false
  | Json.str s => !(s == "")
  | Json.num n => !(n == 0)
  | Json.bool b => b
  | Json.arr _ => true
  | Json.obj _ => true

mutual

/-- JavaScript `String(value)` coercion, as used by the query builder. -/
def jsToString : Json → String
  | Json.null => "null"
  | Json.undefined => "undefined"
  | Json.str s => s
  | Json.num n => toString n
  | Json.bool b => if b then "true" else "false"
  | Json.arr xs => String.intercalate "," (jsToStringList xs)
  | Json.obj _ => "[object Object]"

def jsToStringList : List Json → List String
  | [] => []
  | x :: xs => jsToString x :: jsToStringList xs

end

/-- Property access `record[key]` on a parsed JSON object, yielding the
field value, or JS `undefined` when the key is missing or the value is
not an object. -/
def jget (j : Json) (key : String) : Json :=
  match j with
  | Json.obj fields =>
      match fields.find? (fun kv => kv.1 == key) with
      | some kv => kv.2
      | none => Json.undefined
  | _ => Json.undefined

/-- Lookup in an association list modelling a JS record. -/
def listLookup (m : List (String × Json)) (key : String) : Option Json :=
  (m.find? (fun kv => kv.1 == key)).map (fun kv => kv.2)

/- ### URL encoding (URLSearchParams.toString) -/

def hexDigit (n : Nat) : Char :=
  if n < 10 then Char.ofNat (48 + n) else Char.ofNat (55 + n)

def percentByte (b : Nat) : String :=
  String.mk ['%', hexDigit (b / 16), hexDigit (b % 16)]

/-- UTF-8 bytes of a character. -/
def utf8Bytes (c : Char) : List Nat :=
  let n := c.toNat
  if n < 128 then [n]
  else if n < 2048 then [192 + n / 64, 128 + n % 64]
  else if n < 65536 then [224 + n / 4096, 128 + (n / 64) % 64, 128 + n % 64]
  else [240 + n / 262144, 128 + (n / 4096) % 64, 128 + (n / 64) % 64, 128 + n % 64]

/-- Characters kept verbatim by application/x-www-form-urlencoded
serialization: ASCII alphanumerics and `*`, `-`, `.`, `_`. -/
def isUnreserved (c : Char) : Bool :=
  (65 ≤ c.toNat && c.toNat ≤ 90) || (97 ≤ c.toNat && c.toNat ≤ 122) ||
  (48 ≤ c.toNat && c.toNat ≤ 57) ||
  c == '*' || c == '-' || c == '.' || c == '_'

def encodeChar (c : Char) : String :=
  if isUnreserved c then String.mk [c]
  else if c == ' ' then "+"
  else String.join ((utf8Bytes c).map percentByte)

/-- Form-urlencoding of one key or value, as `URLSearchParams` performs it. -/
def formEncode (s : String) : String :=
  String.join (s.data.map encodeChar)

/- ### TodoistClient (TodoistApiClient.ts) -/

def API_BASE_URL : String := "https://api.todoist.com/rest/v2"

def SYNC_API_URL : String := "https://api.todoist.com/sync/v9/sync"

/-- The loop in `TodoistClient.get`: for each entry of the params record,
append `(key, String(value))` to the `URLSearchParams` only when the
value is truthy. -/
def buildQueryPairs : List (String × Json) → List (String × String)
  | [] => []
  | (k, v) :: rest =>
      if jsTruthy v then (k, jsToString v) :: buildQueryPairs rest
      else buildQueryPairs rest

/-- `URLSearchParams.toString()`: ampersand-separated, form-urlencoded
`key=value` pairs. -/
def queryToString (pairs : List (String × String)) : String :=
  String.intercalate "&" (pairs.map (fun kv => formEncode kv.1 ++ "=" ++ formEncode kv.2))

/-- The URL requested by `TodoistClient.get(endpoint, params)`. -/
def clientGetUrl (endpoint : String) (params : List (String × Json)) : String :=
  let url := API_BASE_URL ++ endpoint
  let queryString := queryToString (buildQueryPairs params)
  if queryString == "" then url else url ++ "?" ++ queryString

/-- The message of the `Error` thrown by `TodoistClient.handleResponse`
when `response.ok` is false. -/
def upstreamErrorMessage (status : Nat) (body : String) : String :=
  "Todoist API error (" ++ toString status ++ "): " ++ body

/-- Outcome of a `fetch`: HTTP success flag, status code, raw body text,
and the body parsed as JSON. -/
structure HttpResponse where
  ok : Bool
  status : Nat
  body : String
  json : Json

/-- `TodoistClient.handleResponse`: throw on non-ok status with the status
code and raw body in the message; return `null` (here `none`) for
204 No Content; otherwise return the parsed JSON body. -/
def handleResponse (r : HttpResponse) : Except String (Option Json) :=
  if !r.ok then Except.error (upstreamErrorMessage r.status r.body)
  else if r.status == 204 then Except.ok none
  else Except.ok (some r.json)

/- ### moveTask (Sync API) -/

/-- The destination record passed to `TodoistClient.moveTask`. -/
structure MoveDest where
  project_id : Option String
  section_id : Option String
  parent_id : Option String

/-- Truthiness of an optional string parameter (`if (x)` where
`x : string | undefined`). -/
def truthyS (o : Option String) : Bool :=
  match o with
  | some s => !(s == "")
  | none => false

/-- The `args` record of the `item_move` command built by `moveTask`:
`{ id: taskId }` plus each destination field that is truthy. -/
def moveArgs (taskId : String) (d : MoveDest) : List (String × String) :=
  [("id", taskId)] ++
  (if truthyS d.project_id then [("project_id", d.project_id.getD "")] else []) ++
  (if truthyS d.section_id then [("section_id", d.section_id.getD "")] else []) ++
  (if truthyS d.parent_id then [("parent_id", d.parent_id.getD "")] else [])

/-- The parsed Sync API response body, typed in the source as
`{ sync_status: Record<string, string> }`.  `none` models a response in
which `sync_status` is absent (or null), which is falsy in JS. -/
structure SyncResult where
  sync_status : Option (List (String × Json))

/-- JS strict comparison `entry !== 'ok'`, negated: the per-command status
entry is exactly the string literal `"ok"`. -/
def syncEntryIsOk (v : Option Json) : Bool :=
  match v with
  | some (Json.str s) => s == "ok"
  | _ => false

/-- `TodoistClient.moveTask`, given the transport outcome of the single
`fetch` against the Sync API: throw on non-ok HTTP status; then, only
when the parsed response's `sync_status` field is present (truthy), throw
a move error unless its entry for the generated `uuid` is the literal
string `"ok"`; otherwise return the parsed response. -/
def moveTask (strf : Json → String) (taskId uuid : String) (dest : MoveDest)
    (respOk : Bool) (respStatus : Nat) (respBody : String) (result : SyncResult) :
    Except String SyncResult :=
  let _ := moveArgs taskId dest
  if !respOk then
    Except.error ("Todoist Sync API error (" ++ toString respStatus ++ "): " ++ respBody)
  else
    match result.sync_status with
    | some m =>
        if !syncEntryIsOk (listLookup m uuid) then
          Except.error ("Move task failed: " ++ strf ((listLookup m uuid).getD Json.undefined))
        else Except.ok result
    | none => Except.ok result

/- ### The ToolResult envelope and the abstract client -/

/-- One content block of an MCP tool result ({ type: 'text', text }). -/
structure ContentBlock where
  type : String
  text : String

/-- The uniform response envelope every handler returns.  An absent
`isError` field in the source is modelled as `false`. -/
structure ToolResult where
  content : List ContentBlock
  isError : Bool

def textBlock (s : String) : ContentBlock := ⟨"text", s⟩

/-- A successful envelope with a single text block. -/
def okRes (s : String) : ToolResult := ⟨[textBlock s], false⟩

/-- The catch-block text: `Error <action>: <message>`. -/
def errText (action msg : String) : String := "Error " ++ action ++ ": " ++ msg

/-- The failure envelope produced by every handler's catch block. -/
def errRes (action msg : String) : ToolResult := ⟨[textBlock (errText action msg)], true⟩

/-- A client operation as the handlers issue it: the method, the endpoint
path, and the query-parameter or body record the handler built. -/
inductive ClientOp where
  | get (endpoint : String) (params : List (String × Json))
  | post (endpoint : String) (body : List (String × Json))
  | del (endpoint : String)
  | move (taskId : String) (destination : MoveDest)

/-- The abstract `TodoistClient` as seen from a handler: each operation
either yields a parsed payload or throws an `Error` with a message. -/
def Client : Type := ClientOp → Except String Json

/-- A client whose every operation fails with the given message. -/
def failingClient (msg : String) : Client := fun _ => Except.error msg

/-- The shared handler shape: one client call inside try/catch; on
success serialize the payload as text, on failure return the
`Error <action>: <message>` envelope.  The second component is the list
of client operations performed. -/
def runJsonOp (strf : Json → String) (action : String) (op : ClientOp)
    (client : Client) : ToolResult × List ClientOp :=
  match client op with
  | Except.ok v => (okRes (strf v), [op])
  | Except.error e => (errRes action e, [op])

/-- Handler shape for operations whose success text is a fixed
confirmation string instead of the serialized payload. -/
def runMsgOp (action successMsg : String) (op : ClientOp)
    (client : Client) : ToolResult × List ClientOp :=
  match client op with
  | Except.ok _ => (okRes successMsg, [op])
  | Except.error e => (errRes action e, [op])

/- ### Optional-field inclusion helpers

The handlers use two different inclusion rules for optional parameters:
`if (x) body.x = x` (truthiness: add*) and
`if (x !== undefined) body.x = x` (definedness: def*). -/

def addS (key : String) : Option String → List (String × Json)
  | some s => if s == "" then [] else [(key, Json.str s)]
  | none => []

def addN (key : String) : Option Int → List (String × Json)
  | some n => if n == 0 then [] else [(key, Json.num n)]
  | none => []

def addArr (key : String) : Option (List String) → List (String × Json)
  | some xs => [(key, Json.arr (xs.map Json.str))]
  | none => []

def addJ (key : String) : Option Json → List (String × Json)
  | some j => [(key, j)]
  | none => []

def defS (key : String) : Option String → List (String × Json)
  | some s => [(key, Json.str s)]
  | none => []

def defN (key : String) : Option Int → List (String × Json)
  | some n => [(key, Json.num n)]
  | none => []

def defB (key : String) : Option Bool → List (String × Json)
  | some b => [(key, Json.bool b)]
  | none => []

def defArr (key : String) : Option (List String) → List (String × Json)
  | some xs => [(key, Json.arr (xs.map Json.str))]
  | none => []

/-- Value of an optional string field written directly into an object
literal: JS `undefined` when absent. -/
def optJ : Option String → Json
  | some s => Json.str s
  | none => Json.undefined

def optJB : Option Bool → Json
  | some b => Json.bool b
  | none => Json.undefined

def optJN : Option Int → Json
  | some n => Json.num n
  | none => Json.undefined

/- ### Tool handlers (TodoistMCP.init)

One Lean function per registered tool handler, translated from the
corresponding `this.server.tool(...)` callback.  Tools whose only
parameter is a single required string (or number) use that value directly
as their argument type. -/

/-- The AuthorizationContext injected by the OAuth collaborator. -/
structure Props where
  full_name : String
  email : String
  accessToken : String

/-- The `me` tool: returns data from the AuthorizationContext and performs
no client operation. -/
def meRun (strf : Json → String) (p : Props) : ToolResult × List ClientOp :=
  (okRes (strf (Json.obj [("email", Json.str p.email), ("full_name", Json.str p.full_name)])), [])

/-- `task.due?.date`: undefined when `due` is nullish, else the `date`
field of `due`. -/
def dueDateOf (t : Json) : Json :=
  match jget t "due" with
  | Json.null => Json.undefined
  | Json.undefined => Json.undefined
  | d => jget d "date"

/-- JS `x || null`. -/
def orNull (v : Json) : Json := if jsTruthy v then v else Json.null

/-- The projection applied by `get_tasks_by_filter` to each task:
`{ content, description, due_date: task.due?.date || null }`. -/
def formatTask (t : Json) : Json :=
  Json.obj [("content", jget t "content"), ("description", jget t "description"),
            ("due_date", orNull (dueDateOf t))]

/-- The `get_tasks_by_filter` handler: one list call, then the projection;
a non-array payload makes `tasks.map` throw a TypeError caught by the
same catch block. -/
def getTasksByFilterRun (strf : Json → String) (client : Client) (filter : String) :
    ToolResult × List ClientOp :=
  let op := ClientOp.get "/tasks" [("filter", Json.str filter)]
  match client op with
  | Except.ok (Json.arr ts) => (okRes (strf (Json.arr (ts.map formatTask))), [op])
  | Except.ok _ => (errRes "fetching tasks" "tasks.map is not a function", [op])
  | Except.error e => (errRes "fetching tasks" e, [op])

structure CreateProjectArgs where
  name : String
  description : Option String
  parent_id : Option String
  color : Option String
  is_favorite : Option Bool
  view_style : Option String

/-- `create_project` posts an object literal carrying every key, absent
optional inputs appearing as `undefined` values. -/
def createProjectBody (a : CreateProjectArgs) : List (String × Json) :=
  [("name", Json.str a.name), ("description", optJ a.description),
   ("parent_id", optJ a.parent_id), ("color", optJ a.color),
   ("is_favorite", optJB a.is_favorite), ("view_style", optJ a.view_style)]

def createProjectRun (strf : Json → String) (client : Client) (a : CreateProjectArgs) :
    ToolResult × List ClientOp :=
  runJsonOp strf "creating project" (ClientOp.post "/projects" (createProjectBody a)) client

structure PageArgs where
  cursor : Option String
  limit : Option Int

def pageParams (a : PageArgs) : List (String × Json) :=
  addS "cursor" a.cursor ++ addN "limit" a.limit

def getProjectsRun (strf : Json → String) (client : Client) (a : PageArgs) :
    ToolResult × List ClientOp :=
  runJsonOp strf "fetching projects" (ClientOp.get "/projects" (pageParams a)) client

def getProjectRun (strf : Json → String) (client : Client) (project_id : String) :
    ToolResult × List ClientOp :=
  runJsonOp strf "fetching project" (ClientOp.get ("/projects/" ++ project_id) []) client

structure UpdateProjectArgs where
  project_id : String
  name : Option String
  description : Option String
  color : Option String
  is_favorite : Option Bool
  view_style : Option String

/-- `update_project` adds a key only when the input is not `undefined`. -/
def updateProjectBody (a : UpdateProjectArgs) : List (String × Json) :=
  defS "name" a.name ++ defS "description" a.description ++ defS "color" a.color ++
  defB "is_favorite" a.is_favorite ++ defS "view_style" a.view_style

def updateProjectRun (strf : Json → String) (client : Client) (a : UpdateProjectArgs) :
    ToolResult × List ClientOp :=
  runJsonOp strf "updating project"
    (ClientOp.post ("/projects/" ++ a.project_id) (updateProjectBody a)) client

def deleteProjectRun (client : Client) (project_id : String) : ToolResult × List ClientOp :=
  runMsgOp "deleting project" "Project deleted successfully"
    (ClientOp.del ("/projects/" ++ project_id)) client

def archiveProjectRun (client : Client) (project_id : String) : ToolResult × List ClientOp :=
  runMsgOp "archiving project" "Project archived successfully"
    (ClientOp.post ("/projects/" ++ project_id ++ "/archive") []) client

def unarchiveProjectRun (client : Client) (project_id : String) : ToolResult × List ClientOp :=
  runMsgOp "unarchiving project" "Project unarchived successfully"
    (ClientOp.post ("/projects/" ++ project_id ++ "/unarchive") []) client

def getProjectCollaboratorsRun (strf : Json → String) (client : Client) (project_id : String) :
    ToolResult × List ClientOp :=
  runJsonOp strf "fetching collaborators"
    (ClientOp.get ("/projects/" ++ project_id ++ "/collaborators") []) client

structure CreateSectionArgs where
  name : String
  project_id : String
  order : Option Int

def createSectionBody (a : CreateSectionArgs) : List (String × Json) :=
  [("name", Json.str a.name), ("project_id", Json.str a.project_id), ("order", optJN a.order)]

def createSectionRun (strf : Json → String) (client : Client) (a : CreateSectionArgs) :
    ToolResult × List ClientOp :=
  runJsonOp strf "creating section" (ClientOp.post "/sections" (createSectionBody a)) client

structure GetSectionsArgs where
  project_id : Option String
  cursor : Option String
  limit : Option Int

def getSectionsParams (a : GetSectionsArgs) : List (String × Json) :=
  addS "project_id" a.project_id ++ addS "cursor" a.cursor ++ addN "limit" a.limit

def getSectionsRun (strf : Json → String) (client : Client) (a : GetSectionsArgs) :
    ToolResult × List ClientOp :=
  runJsonOp strf "fetching sections" (ClientOp.get "/sections" (getSectionsParams a)) client

def getSectionRun (strf : Json → String) (client : Client) (section_id : String) :
    ToolResult × List ClientOp :=
  runJsonOp strf "fetching section" (ClientOp.get ("/sections/" ++ section_id) []) client

def updateSectionRun (strf : Json → String) (client : Client) (a : String × String) :
    ToolResult × List ClientOp :=
  runJsonOp strf "updating section"
    (ClientOp.post ("/sections/" ++ a.1) [("name", Json.str a.2)]) client

def deleteSectionRun (client : Client) (section_id : String) : ToolResult × List ClientOp :=
  runMsgOp "deleting section" "Section deleted successfully"
    (ClientOp.del ("/sections/" ++ section_id)) client

structure CreateTaskArgs where
  content : String
  description : Option String
  project_id : Option String
  section_id : Option String
  parent_id : Option String
  labels : Option (List String)
  priority : Option Int
  due_string : Option String
  due_date : Option String
  due_datetime : Option String
  deadline_date : Option String
  assignee_id : Option String

/-- `create_task` adds each optional key only when the input is truthy
(`if (x) taskData.x = x`). -/
def createTaskBody (a : CreateTaskArgs) : List (String × Json) :=
  [("content", Json.str a.content)] ++
  addS "description" a.description ++ addS "project_id" a.project_id ++
  addS "section_id" a.section_id ++ addS "parent_id" a.parent_id ++
  addArr "labels" a.labels ++ addN "priority" a.priority ++
  addS "due_string" a.due_string ++ addS "due_date" a.due_date ++
  addS "due_datetime" a.due_datetime ++ addS "deadline_date" a.deadline_date ++
  addS "assignee_id" a.assignee_id

def createTaskRun (strf : Json → String) (client : Client) (a : CreateTaskArgs) :
    ToolResult × List ClientOp :=
  runJsonOp strf "creating task" (ClientOp.post "/tasks" (createTaskBody a)) client

structure GetTasksArgs where
  project_id : Option String
  section_id : Option String
  parent_id : Option String
  label : Option String
  ids : Option String
  cursor : Option String
  limit : Option Int

def getTasksParams (a : GetTasksArgs) : List (String × Json) :=
  addS "project_id" a.project_id ++ addS "section_id" a.section_id ++
  addS "parent_id" a.parent_id ++ addS "label" a.label ++ addS "ids" a.ids ++
  addS "cursor" a.cursor ++ addN "limit" a.limit

def getTasksRun (strf : Json → String) (client : Client) (a : GetTasksArgs) :
    ToolResult × List ClientOp :=
  runJsonOp strf "fetching tasks" (ClientOp.get "/tasks" (getTasksParams a)) client

def getTaskRun (strf : Json → String) (client : Client) (task_id : String) :
    ToolResult × List ClientOp :=
  runJsonOp strf "fetching task" (ClientOp.get ("/tasks/" ++ task_id) []) client

structure UpdateTaskArgs where
  task_id : String
  content : Option String
  description : Option String
  labels : Option (List String)
  priority : Option Int
  due_string : Option String
  due_date : Option String
  due_datetime : Option String
  deadline_date : Option String
  assignee_id : Option String

/-- `update_task` adds a key only when the input is not `undefined`. -/
def updateTaskBody (a : UpdateTaskArgs) : List (String × Json) :=
  defS "content" a.content ++ defS "description" a.description ++
  defArr "labels" a.labels ++ defN "priority" a.priority ++
  defS "due_string" a.due_string ++ defS "due_date" a.due_date ++
  defS "due_datetime" a.due_datetime ++ defS "deadline_date" a.deadline_date ++
  defS "assignee_id" a.assignee_id

def updateTaskRun (strf : Json → String) (client : Client) (a : UpdateTaskArgs) :
    ToolResult × List ClientOp :=
  runJsonOp strf "updating task"
    (ClientOp.post ("/tasks/" ++ a.task_id) (updateTaskBody a)) client

def deleteTaskRun (client : Client) (task_id : String) : ToolResult × List ClientOp :=
  runMsgOp "deleting task" "Task deleted successfully"
    (ClientOp.del ("/tasks/" ++ task_id)) client

def closeTaskRun (client : Client) (task_id : String) : ToolResult × List ClientOp :=
  runMsgOp "completing task" "Task completed successfully"
    (ClientOp.post ("/tasks/" ++ task_id ++ "/close") []) client

def reopenTaskRun (client : Client) (task_id : String) : ToolResult × List ClientOp :=
  runMsgOp "reopening task" "Task reopened successfully"
    (ClientOp.post ("/tasks/" ++ task_id ++ "/reopen") []) client

structure MoveTaskArgs where
  task_id : String
  project_id : Option String
  section_id : Option String
  parent_id : Option String

/-- The destination object built by the `move_task` handler: each field is
assigned only when the input is truthy. -/
def moveDestOf (a : MoveTaskArgs) : MoveDest :=
  ⟨if truthyS a.project_id then a.project_id else none,
   if truthyS a.section_id then a.section_id else none,
   if truthyS a.parent_id then a.parent_id else none⟩

/-- The precondition-failure text returned by `move_task` when no
destination is supplied. -/
def moveNoDestMsg : String :=
  "Error: At least one destination must be provided (project_id, section_id, or parent_id)"

/-- The `move_task` handler: validate that at least one destination field
is truthy before any client call; otherwise issue the single move
operation inside try/catch. -/
def moveTaskRun (strf : Json → String) (client : Client) (a : MoveTaskArgs) :
    ToolResult × List ClientOp :=
  if !truthyS a.project_id && !truthyS a.section_id && !truthyS a.parent_id then
    (⟨[textBlock moveNoDestMsg], true⟩, [])
  else
    let op := ClientOp.move a.task_id (moveDestOf a)
    match client op with
    | Except.ok v => (okRes ("Task moved successfully.\n" ++ strf v), [op])
    | Except.error e => (errRes "moving task" e, [op])

structure QuickAddArgs where
  text : String
  note : Option String
  reminder : Option String
  auto_reminder : Option Bool

def quickAddBody (a : QuickAddArgs) : List (String × Json) :=
  [("text", Json.str a.text)] ++ addS "note" a.note ++ addS "reminder" a.reminder ++
  defB "auto_reminder" a.auto_reminder

def quickAddTaskRun (strf : Json → String) (client : Client) (a : QuickAddArgs) :
    ToolResult × List ClientOp :=
  runJsonOp strf "creating quick task" (ClientOp.post "/tasks/quick" (quickAddBody a)) client

structure CompletedTasksArgs where
  since : String
  until_ : String
  project_id : Option String
  section_id : Option String
  parent_id : Option String
  filter_query : Option String
  filter_lang : Option String
  workspace_id : Option Int
  limit : Option Int
  cursor : Option String

def completedTasksParams (a : CompletedTasksArgs) : List (String × Json) :=
  [("since", Json.str a.since), ("until", Json.str a.until_)] ++
  addS "project_id" a.project_id ++ addS "section_id" a.section_id ++
  addS "parent_id" a.parent_id ++ addS "filter_query" a.filter_query ++
  addS "filter_lang" a.filter_lang ++ addN "workspace_id" a.workspace_id ++
  addN "limit" a.limit ++ addS "cursor" a.cursor

def getCompletedByCompletionRun (strf : Json → String) (client : Client)
    (a : CompletedTasksArgs) : ToolResult × List ClientOp :=
  runJsonOp strf "fetching completed tasks"
    (ClientOp.get "/tasks/completed/by_completion_date" (completedTasksParams a)) client

def getCompletedByDueRun (strf : Json → String) (client : Client)
    (a : CompletedTasksArgs) : ToolResult × List ClientOp :=
  runJsonOp strf "fetching completed tasks by due date"
    (ClientOp.get "/tasks/completed/by_due_date" (completedTasksParams a)) client

structure CreateLabelArgs where
  name : String
  color : Option String
  order : Option Int
  is_favorite : Option Bool

def createLabelBody (a : CreateLabelArgs) : List (String × Json) :=
  [("name", Json.str a.name)] ++ addS "color" a.color ++ defN "order" a.order ++
  defB "is_favorite" a.is_favorite

def createLabelRun (strf : Json → String) (client : Client) (a : CreateLabelArgs) :
    ToolResult × List ClientOp :=
  runJsonOp strf "creating label" (ClientOp.post "/labels" (createLabelBody a)) client

def getLabelsRun (strf : Json → String) (client : Client) (a : PageArgs) :
    ToolResult × List ClientOp :=
  runJsonOp strf "fetching labels" (ClientOp.get "/labels" (pageParams a)) client

def getLabelRun (strf : Json → String) (client : Client) (label_id : Int) :
    ToolResult × List ClientOp :=
  runJsonOp strf "fetching label" (ClientOp.get ("/labels/" ++ toString label_id) []) client

structure UpdateLabelArgs where
  label_id : Int
  name : Option String
  color : Option String
  order : Option Int
  is_favorite : Option Bool

def updateLabelBody (a : UpdateLabelArgs) : List (String × Json) :=
  defS "name" a.name ++ defS "color" a.color ++ defN "order" a.order ++
  defB "is_favorite" a.is_favorite

def updateLabelRun (strf : Json → String) (client : Client) (a : UpdateLabelArgs) :
    ToolResult × List ClientOp :=
  runJsonOp strf "updating label"
    (ClientOp.post ("/labels/" ++ toString a.label_id) (updateLabelBody a)) client

def deleteLabelRun (client : Client) (label_id : Int) : ToolResult × List ClientOp :=
  runMsgOp "deleting label" "Label deleted successfully"
    (ClientOp.del ("/labels/" ++ toString label_id)) client

def getSharedLabelsRun (strf : Json → String) (client : Client) (omit_personal : Option Bool) :
    ToolResult × List ClientOp :=
  runJsonOp strf "fetching shared labels"
    (ClientOp.get "/labels/shared" (defB "omit_personal" omit_personal)) client

def removeSharedLabelRun (client : Client) (name : String) : ToolResult × List ClientOp :=
  runMsgOp "removing shared label" "Shared label removed successfully"
    (ClientOp.post "/labels/shared/remove" [("name", Json.str name)]) client

def renameSharedLabelRun (client : Client) (a : String × String) : ToolResult × List ClientOp :=
  runMsgOp "renaming shared label" "Shared label renamed successfully"
    (ClientOp.post "/labels/shared/rename"
      [("name", Json.str a.1), ("new_name", Json.str a.2)]) client

structure CreateCommentArgs where
  content : String
  task_id : Option String
  project_id : Option String
  attachment : Option Json

def createCommentBody (a : CreateCommentArgs) : List (String × Json) :=
  [("content", Json.str a.content)] ++ addS "task_id" a.task_id ++
  addS "project_id" a.project_id ++ addJ "attachment" a.attachment

def createCommentRun (strf : Json → String) (client : Client) (a : CreateCommentArgs) :
    ToolResult × List ClientOp :=
  runJsonOp strf "creating comment" (ClientOp.post "/comments" (createCommentBody a)) client

structure GetCommentsArgs where
  task_id : Option String
  project_id : Option String
  cursor : Option String
  limit : Option Int

def getCommentsParams (a : GetCommentsArgs) : List (String × Json) :=
  addS "task_id" a.task_id ++ addS "project_id" a.project_id ++
  addS "cursor" a.cursor ++ addN "limit" a.limit

def getCommentsRun (strf : Json → String) (client : Client) (a : GetCommentsArgs) :
    ToolResult × List ClientOp :=
  runJsonOp strf "fetching comments" (ClientOp.get "/comments" (getCommentsParams a)) client

def getCommentRun (strf : Json → String) (client : Client) (comment_id : String) :
    ToolResult × List ClientOp :=
  runJsonOp strf "fetching comment" (ClientOp.get ("/comments/" ++ comment_id) []) client

def updateCommentRun (strf : Json → String) (client : Client) (a : String × String) :
    ToolResult × List ClientOp :=
  runJsonOp strf "updating comment"
    (ClientOp.post ("/comments/" ++ a.1) [("content", Json.str a.2)]) client

def deleteCommentRun (client : Client) (comment_id : String) : ToolResult × List ClientOp :=
  runMsgOp "deleting comment" "Comment deleted successfully"
    (ClientOp.del ("/comments/" ++ comment_id)) client

/- ### Tool filtering and registration (TodoistMCP) -/

/-- Compiled-in minimal-mode switch (`private static readonly
MINIMAL_TOOL_SET = true`). -/
def MINIMAL_TOOL_SET : Bool := true

/-- The `ESSENTIAL_TOOLS` set, in source order. -/
def ESSENTIAL_TOOLS : List String :=
  ["create_task", "get_tasks", "update_task", "close_task",
   "get_projects", "get_project", "move_task", "get_tasks_by_filter",
   "create_project", "update_project", "get_sections", "delete_task", "reopen_task",
   "get_labels", "create_section", "update_section",
   "get_completed_tasks_by_completion_date", "get_completed_tasks_by_due_date"]

/-- `shouldRegisterTool` as a function of the tool name and the two pieces
of static configuration it reads. -/
def shouldRegisterToolWith (minimalToolSet : Bool) (essentialTools : List String)
    (toolName : String) : Bool :=
  !minimalToolSet || essentialTools.contains toolName

/-- `TodoistMCP.shouldRegisterTool`, reading the compiled-in configuration. -/
def shouldRegisterTool (toolName : String) : Bool :=
  shouldRegisterToolWith MINIMAL_TOOL_SET ESSENTIAL_TOOLS toolName

/-- The full catalogue of tools in `init()` registration order, each name
paired with whether its registration is guarded by
`if (this.shouldRegisterTool(...))` (`true`) or unconditional (`false`). -/
def toolCatalogue : List (String × Bool) :=
  [("me", true),
   ("get_tasks_by_filter", false),
   ("create_project", false),
   ("get_projects", false),
   ("get_project", false),
   ("update_project", false),
   ("delete_project", true),
   ("archive_project", true),
   ("unarchive_project", true),
   ("get_project_collaborators", true),
   ("create_section", true),
   ("get_sections", false),
   ("get_section", true),
   ("update_section", true),
   ("delete_section", true),
   ("create_task", false),
   ("get_tasks", false),
   ("get_task", true),
   ("update_task", false),
   ("delete_task", false),
   ("close_task", false),
   ("reopen_task", false),
   ("move_task", false),
   ("quick_add_task", true),
   ("get_completed_tasks_by_completion_date", true),
   ("get_completed_tasks_by_due_date", true),
   ("create_label", true),
   ("get_labels", true),
   ("get_label", true),
   ("update_label", true),
   ("delete_label", true),
   ("get_shared_labels", true),
   ("remove_shared_label", true),
   ("rename_shared_label", true),
   ("create_comment", true),
   ("get_comments", true),
   ("get_comment", true),
   ("update_comment", true),
   ("delete_comment", true)]

/-- The names `init()` registers: a guarded tool is registered only when
the filter predicate accepts it; an unguarded tool always is. -/
def registeredToolNames (minimal : Bool) (essential : List String) : List String :=
  (toolCatalogue.filter
    (fun t => !t.2 || shouldRegisterToolWith minimal essential t.1)).map Prod.fst

/- ### The descriptor catalogue as data -/

/-- A tool descriptor: name, the action phrase of its catch-block message,
its validated-argument type, and its handler. -/
structure ToolEntry where
  name : String
  action : String
  Args : Type
  run : Client → Args → ToolResult × List ClientOp

/-- Every tool descriptor of `init()`, in registration order, with its
handler instantiated at an abstract serializer. -/
def handlerCatalogue (strf : Json → String) : List ToolEntry :=
  [⟨"me", "", Props, fun _ p => meRun strf p⟩,
   ⟨"get_tasks_by_filter", "fetching tasks", String, fun c a => getTasksByFilterRun strf c a⟩,
   ⟨"create_project", "creating project", CreateProjectArgs, fun c a => createProjectRun strf c a⟩,
   ⟨"get_projects", "fetching projects", PageArgs, fun c a => getProjectsRun strf c a⟩,
   ⟨"get_project", "fetching project", String, fun c a => getProjectRun strf c a⟩,
   ⟨"update_project", "updating project", UpdateProjectArgs, fun c a => updateProjectRun strf c a⟩,
   ⟨"delete_project", "deleting project", String, fun c a => deleteProjectRun c a⟩,
   ⟨"archive_project", "archiving project", String, fun c a => archiveProjectRun c a⟩,
   ⟨"unarchive_project", "unarchiving project", String, fun c a => unarchiveProjectRun c a⟩,
   ⟨"get_project_collaborators", "fetching collaborators", String,
     fun c a => getProjectCollaboratorsRun strf c a⟩,
   ⟨"create_section", "creating section", CreateSectionArgs, fun c a => createSectionRun strf c a⟩,
   ⟨"get_sections", "fetching sections", GetSectionsArgs, fun c a => getSectionsRun strf c a⟩,
   ⟨"get_section", "fetching section", String, fun c a => getSectionRun strf c a⟩,
   ⟨"update_section", "updating section", String × String, fun c a => updateSectionRun strf c a⟩,
   ⟨"delete_section", "deleting section", String, fun c a => deleteSectionRun c a⟩,
   ⟨"create_task", "creating task", CreateTaskArgs, fun c a => createTaskRun strf c a⟩,
   ⟨"get_tasks", "fetching tasks", GetTasksArgs, fun c a => getTasksRun strf c a⟩,
   ⟨"get_task", "fetching task", String, fun c a => getTaskRun strf c a⟩,
   ⟨"update_task", "updating task", UpdateTaskArgs, fun c a => updateTaskRun strf c a⟩,
   ⟨"delete_task", "deleting task", String, fun c a => deleteTaskRun c a⟩,
   ⟨"close_task", "completing task", String, fun c a => closeTaskRun c a⟩,
   ⟨"reopen_task", "reopening task", String, fun c a => reopenTaskRun c a⟩,
   ⟨"move_task", "moving task", MoveTaskArgs, fun c a => moveTaskRun strf c a⟩,
   ⟨"quick_add_task", "creating quick task", QuickAddArgs, fun c a => quickAddTaskRun strf c a⟩,
   ⟨"get_completed_tasks_by_completion_date", "fetching completed tasks", CompletedTasksArgs,
     fun c a => getCompletedByCompletionRun strf c a⟩,
   ⟨"get_completed_tasks_by_due_date", "fetching completed tasks by due date",
     CompletedTasksArgs, fun c a => getCompletedByDueRun strf c a⟩,
   ⟨"create_label", "creating label", CreateLabelArgs, fun c a => createLabelRun strf c a⟩,
   ⟨"get_labels", "fetching labels", PageArgs, fun c a => getLabelsRun strf c a⟩,
   ⟨"get_label", "fetching label", Int, fun c a => getLabelRun strf c a⟩,
   ⟨"update_label", "updating label", UpdateLabelArgs, fun c a => updateLabelRun strf c a⟩,
   ⟨"delete_label", "deleting label", Int, fun c a => deleteLabelRun c a⟩,
   ⟨"get_shared_labels", "fetching shared labels", Option Bool,
     fun c a => getSharedLabelsRun strf c a⟩,
   ⟨"remove_shared_label", "removing shared label", String, fun c a => removeSharedLabelRun c a⟩,
   ⟨"rename_shared_label", "renaming shared label", String × String,
     fun c a => renameSharedLabelRun c a⟩,
   ⟨"create_comment", "creating comment", CreateCommentArgs, fun c a => createCommentRun strf c a⟩,
   ⟨"get_comments", "fetching comments", GetCommentsArgs, fun c a => getCommentsRun strf c a⟩,
   ⟨"get_comment", "fetching comment", String, fun c a => getCommentRun strf c a⟩,
   ⟨"update_comment", "updating comment", String × String, fun c a => updateCommentRun strf c a⟩,
   ⟨"delete_comment", "deleting comment", String, fun c a => deleteCommentRun c a⟩]

/- ### Helper lemmas -/

theorem strData_append (s t : String) : (s ++ t).data = s.data ++ t.data := rfl

/-- In the catch-block text for an upstream transport failure, the status
code digits and the raw body text occur as contiguous sublists. -/
theorem errText_has_status_and_body (action : String) (status : Nat) (rawBody : String) :
    (toString status).data <:+: (errText action (upstreamErrorMessage status rawBody)).data ∧
    rawBody.data <:+: (errText action (upstreamErrorMessage status rawBody)).data := by
  constructor
  · refine ⟨("Error " ++ action ++ ": " ++ "Todoist API error (").data, ("): " ++ rawBody).data, ?_⟩
    simp [errText, upstreamErrorMessage, strData_append]
  · refine ⟨("Error " ++ action ++ ": " ++ "Todoist API error (" ++ toString status ++ "): ").data,
      ([] : List Char), ?_⟩
    simp [errText, upstreamErrorMessage, strData_append]

theorem runJsonOp_snd (strf : Json → String) (action : String) (op : ClientOp)
    (client : Client) : (runJsonOp strf action op client).2 = [op] := by
  unfold runJsonOp
  cases client op <;> rfl

theorem moveTaskRun_failing (strf : Json → String) (a : MoveTaskArgs) (msg : String) :
    (moveTaskRun strf (failingClient msg) a).2 ≠ [] →
    (moveTaskRun strf (failingClient msg) a).1 = errRes "moving task" msg := by
  intro hne
  unfold moveTaskRun at hne ⊢
  by_cases h : (!truthyS a.project_id && !truthyS a.section_id && !truthyS a.parent_id) = true
  · rw [if_pos h] at hne
    exact absurd rfl hne
  · rw [if_neg h]
    rfl

/- ### Claim C1 -/

/-- Claim C1 counterexample: a successful HTTP exchange whose parsed
response has no `sync_status` map at all.  The per-command status entry
for the uuid is therefore missing, yet `moveTask` returns the parsed
response instead of failing, because the source only performs the status
check when `result.sync_status` is truthy. -/
theorem moveTask_missing_status_map_returns_ok :
    (SyncResult.mk none).sync_status = none ∧
    moveTask (fun _ => "") "1" "u" ⟨some "p", none, none⟩ true 200 "" (SyncResult.mk none) =
      Except.ok (SyncResult.mk none) :=
  ⟨rfl, rfl⟩

/-- Claim C1 (amended): when the HTTP exchange succeeds and the parsed
response's `sync_status` map is present, `moveTask` fails with a move
error whenever the map's entry for the generated uuid is anything other
than the literal string `"ok"` (a missing entry included); when the
whole map is absent the check is skipped. -/
theorem moveTask_present_status_map_not_ok_fails (strf : Json → String)
    (taskId uuid : String) (dest : MoveDest) (status : Nat) (respBody : String)
    (m : List (String × Json)) (h : syncEntryIsOk (listLookup m uuid) = false) :
    moveTask strf taskId uuid dest true status respBody (SyncResult.mk (some m)) =
      Except.error ("Move task failed: " ++ strf ((listLookup m uuid).getD Json.undefined)) := by
  unfold moveTask
  simp [h]

theorem moveTask_present_status_map_not_ok_fails_witness :
    moveTask (fun _ => "bad") "1" "u" ⟨some "p", none, none⟩ true 200 ""
        (SyncResult.mk (some [])) =
      Except.error ("Move task failed: " ++ "bad") :=
  moveTask_present_status_map_not_ok_fails (fun _ => "bad") "1" "u"
    ⟨some "p", none, none⟩ 200 "" [] rfl

/- ### Claim C2 -/

/-- Claim C2: `move_task` invoked with none of the three destination
arguments supplied returns the precondition-failure envelope with
`isError = true` and performs zero client operations, whatever the
client would have answered. -/
theorem move_task_no_destination_no_client_call (strf : Json → String)
    (client : Client) (taskId : String) :
    moveTaskRun strf client ⟨taskId, none, none, none⟩ =
      (⟨[textBlock moveNoDestMsg], true⟩, []) := rfl

/- ### Claim C9 -/

/-- Claim C9: `move_task` invoked with all three destination arguments
explicitly supplied as empty strings behaves exactly as if they were
absent — the truthiness test rejects them, the handler returns the
`isError = true` envelope, and no client operation is performed. -/
theorem move_task_empty_string_destinations_rejected (strf : Json → String)
    (client : Client) (taskId : String) :
    moveTaskRun strf client ⟨taskId, some "", some "", some ""⟩ =
      (⟨[textBlock moveNoDestMsg], true⟩, []) := rfl

/- ### Claim C3 -/

/-- Claim C3: for every tool descriptor in the catalogue and every
argument record, if the client fails (every handler failure originates in
a client call), the handler still returns — never propagates — and its
result is the `isError = true` envelope whose text is exactly
`Error <action>: <message>`; moreover, for an upstream transport failure
the message produced by `handleResponse` makes the literal status code
and the raw body text occur inside that text. -/
theorem handlers_wrap_client_failures (strf : Json → String) (entry : ToolEntry)
    (hmem : entry ∈ handlerCatalogue strf) (a : entry.Args) (msg : String)
    (status : Nat) (rawBody : String) :
    ((entry.run (failingClient msg) a).2 ≠ [] →
      (entry.run (failingClient msg) a).1 = errRes entry.action msg) ∧
    (toString status).data <:+: (errText entry.action (upstreamErrorMessage status rawBody)).data ∧
    rawBody.data <:+: (errText entry.action (upstreamErrorMessage status rawBody)).data := by
  simp only [handlerCatalogue, List.mem_cons, List.not_mem_nil, or_false] at hmem
  rcases hmem with rfl|rfl|rfl|rfl|rfl|rfl|rfl|rfl|rfl|rfl|rfl|rfl|rfl|rfl|rfl|rfl|rfl|rfl|rfl|rfl|rfl|rfl|rfl|rfl|rfl|rfl|rfl|rfl|rfl|rfl|rfl|rfl|rfl|rfl|rfl|rfl|rfl|rfl|rfl
  all_goals first
    | exact ⟨fun hne => absurd rfl hne, errText_has_status_and_body _ status rawBody⟩
    | exact ⟨fun _ => rfl, errText_has_status_and_body _ status rawBody⟩
    | exact ⟨moveTaskRun_failing strf a msg, errText_has_status_and_body _ status rawBody⟩

theorem handlers_wrap_client_failures_witness :
    ((ToolEntry.mk "get_project" "fetching project" String
        (fun c a => getProjectRun (fun _ => "") c a)).run
      (failingClient (upstreamErrorMessage 404 "not found")) "123").1
    = errRes "fetching project" (upstreamErrorMessage 404 "not found") :=
  (handlers_wrap_client_failures (fun _ => "")
    (ToolEntry.mk "get_project" "fetching project" String
      (fun c a => getProjectRun (fun _ => "") c a))
    (List.Mem.tail _ (List.Mem.tail _ (List.Mem.tail _ (List.Mem.tail _ (List.Mem.head _)))))
    "123" (upstreamErrorMessage 404 "not found") 404 "not found").1
    (List.cons_ne_nil _ _)

/- ### Claim C4 -/

/-- Claim C4: the registration predicate returns true exactly when the
minimal-mode flag is off or the name belongs to the essential set; it is
a pure, total function of the name and these two pieces of static
configuration, and `shouldRegisterTool` is its instance at the
compiled-in configuration. -/
theorem shouldRegisterTool_spec (minimalToolSet : Bool) (essentialTools : List String)
    (toolName : String) :
    (shouldRegisterToolWith minimalToolSet essentialTools toolName = true ↔
      (minimalToolSet = false ∨ toolName ∈ essentialTools)) ∧
    shouldRegisterTool toolName =
      shouldRegisterToolWith MINIMAL_TOOL_SET ESSENTIAL_TOOLS toolName := by
  constructor
  · unfold shouldRegisterToolWith
    cases minimalToolSet <;> simp [List.elem_iff]
  · rfl

/- ### Claim C5 -/

/-- Claim C5: under the compiled-in minimal mode, the registered name set
satisfies both subset directions: every registered name (the
unconditionally registered tools included) belongs to `ESSENTIAL_TOOLS`,
and every essential name occurring in the catalogue is registered. -/
theorem minimal_mode_subset_property :
    MINIMAL_TOOL_SET = true ∧
    (registeredToolNames MINIMAL_TOOL_SET ESSENTIAL_TOOLS).all
      (fun n => ESSENTIAL_TOOLS.contains n) = true ∧
    ESSENTIAL_TOOLS.all
      (fun n => !((toolCatalogue.map Prod.fst).contains n) ||
        (registeredToolNames MINIMAL_TOOL_SET ESSENTIAL_TOOLS).contains n) = true := by
  refine ⟨rfl, by decide, by decide⟩

/- ### Claim C10 -/

/-- Claim C10: under the compiled-in configuration the `me` tool is not
registered: its registration is guarded, minimal mode is on, and its
name is not in `ESSENTIAL_TOOLS`, so the filter rejects it; and its
handler is the one that performs no client operation for any
authorization context. -/
theorem me_tool_not_registered_minimal_mode :
    shouldRegisterTool "me" = false ∧
    ESSENTIAL_TOOLS.contains "me" = false ∧
    MINIMAL_TOOL_SET = true ∧
    ("me", true) ∈ toolCatalogue ∧
    (registeredToolNames MINIMAL_TOOL_SET ESSENTIAL_TOOLS).contains "me" = false ∧
    ∀ (strf : Json → String) (p : Props), (meRun strf p).2 = [] :=
  ⟨by decide, by decide, rfl, by decide, by decide, fun _ _ => rfl⟩

/- ### Claim C6 -/

/-- Whether a built request record carries the given key. -/
def containsKey (l : List (String × Json)) (key : String) : Bool :=
  l.any (fun kv => kv.1 == key)

theorem containsKey_append (l1 l2 : List (String × Json)) (key : String) :
    containsKey (l1 ++ l2) key = (containsKey l1 key || containsKey l2 key) := by
  simp [containsKey, List.any_append]

theorem containsKey_defS_self (key : String) (v : Option String) :
    containsKey (defS key v) key = v.isSome := by
  cases v <;> simp [containsKey, defS]

theorem containsKey_defS_of_ne (key key2 : String) (v : Option String)
    (h : (key == key2) = false) : containsKey (defS key v) key2 = false := by
  cases v <;> simp [containsKey, defS, h]

theorem containsKey_defB_self (key : String) (v : Option Bool) :
    containsKey (defB key v) key = v.isSome := by
  cases v <;> simp [containsKey, defB]

theorem containsKey_defB_of_ne (key key2 : String) (v : Option Bool)
    (h : (key == key2) = false) : containsKey (defB key v) key2 = false := by
  cases v <;> simp [containsKey, defB, h]

theorem containsKey_addS_self (key : String) (v : Option String) :
    containsKey (addS key v) key = truthyS v := by
  cases v with
  | none => rfl
  | some s =>
      by_cases hs : (s == "") = true <;> simp [containsKey, addS, truthyS, hs]

theorem containsKey_addS_of_ne (key key2 : String) (v : Option String)
    (h : (key == key2) = false) : containsKey (addS key v) key2 = false := by
  cases v with
  | none => rfl
  | some s =>
      by_cases hs : (s == "") = true <;> simp [containsKey, addS, h, hs]

theorem containsKey_addN_of_ne (key key2 : String) (v : Option Int)
    (h : (key == key2) = false) : containsKey (addN key v) key2 = false := by
  cases v with
  | none => rfl
  | some n =>
      by_cases hn : (n == 0) = true <;> simp [containsKey, addN, h, hn]

theorem containsKey_addArr_of_ne (key key2 : String) (v : Option (List String))
    (h : (key == key2) = false) : containsKey (addArr key v) key2 = false := by
  cases v <;> simp [containsKey, addArr, h]

theorem containsKey_single (key : String) (v : Json) (key2 : String) :
    containsKey [(key, v)] key2 = (key == key2) := by
  simp [containsKey]

theorem containsKey_cons (key : String) (v : Json) (l : List (String × Json))
    (key2 : String) :
    containsKey ((key, v) :: l) key2 = ((key == key2) || containsKey l key2) := by
  simp [containsKey]

def c6Args : CreateTaskArgs :=
  ⟨"x", some "", none, none, none, none, none, none, none, none, none, none⟩

/-- Claim C6 counterexample: `create_task` invoked with `description`
explicitly set to the empty string — an input that is not the absent
sentinel `undefined` — builds a request body with no `description` key,
because this handler includes optional keys by truthiness, not by
definedness. -/
theorem create_task_description_empty_string_omitted :
    c6Args.description ≠ none ∧
    containsKey (createTaskBody c6Args) "description" = false :=
  ⟨by decide, rfl⟩

/-- Claim C6 (amended): the update-style handlers include an optional key
exactly when the input is not `undefined` — in particular `update_project`
invoked with only `project_id` posts the empty body — but handlers in the
`create_task` style include an optional key exactly when the input is
truthy, so a falsy-but-supplied value such as the empty string is
omitted. -/
theorem optional_field_inclusion_amended (a : UpdateProjectArgs) (b : CreateTaskArgs) :
    containsKey (updateProjectBody a) "name" = a.name.isSome ∧
    containsKey (updateProjectBody a) "description" = a.description.isSome ∧
    containsKey (updateProjectBody a) "color" = a.color.isSome ∧
    containsKey (updateProjectBody a) "is_favorite" = a.is_favorite.isSome ∧
    containsKey (updateProjectBody a) "view_style" = a.view_style.isSome ∧
    updateProjectBody ⟨"1", none, none, none, none, none⟩ = [] ∧
    (∀ (strf : Json → String) (client : Client),
      (updateProjectRun strf client ⟨"1", none, none, none, none, none⟩).2 =
        [ClientOp.post "/projects/1" []]) ∧
    containsKey (createTaskBody b) "description" = truthyS b.description := by
  refine ⟨?_, ?_, ?_, ?_, ?_, rfl, fun strf client => runJsonOp_snd strf _ _ client, ?_⟩
  · simp [updateProjectBody, containsKey_append, containsKey_defS_self,
      containsKey_defS_of_ne, containsKey_defB_of_ne]
  · simp [updateProjectBody, containsKey_append, containsKey_defS_self,
      containsKey_defS_of_ne, containsKey_defB_of_ne]
  · simp [updateProjectBody, containsKey_append, containsKey_defS_self,
      containsKey_defS_of_ne, containsKey_defB_of_ne]
  · simp [updateProjectBody, containsKey_append, containsKey_defB_self,
      containsKey_defS_of_ne, containsKey_defB_of_ne]
  · simp [updateProjectBody, containsKey_append, containsKey_defS_self,
      containsKey_defS_of_ne, containsKey_defB_of_ne]
  · simp [createTaskBody, containsKey_append, containsKey_cons, containsKey_addS_self,
      containsKey_addS_of_ne, containsKey_addN_of_ne, containsKey_addArr_of_ne]

/- ### Claim C7 -/

/-- Claim C7: the query built by `TodoistClient.get` consists of exactly
the parameters whose value is truthy — every falsy value (empty string,
0, false, null, undefined) is silently dropped — each rendered through
`String(...)` and form-urlencoded into the URL; consequently `get_tasks`
with cursor "abc" and limit 10 issues a get whose query record is exactly
those two pairs, and the requested URL carries exactly
`cursor=abc&limit=10`. -/
theorem client_get_truthy_query_params (params : List (String × Json))
    (strf : Json → String) (client : Client) :
    buildQueryPairs params =
      (params.filter (fun kv => jsTruthy kv.2)).map (fun kv => (kv.1, jsToString kv.2)) ∧
    queryToString (buildQueryPairs params) =
      String.intercalate "&"
        ((buildQueryPairs params).map (fun kv => formEncode kv.1 ++ "=" ++ formEncode kv.2)) ∧
    getTasksParams ⟨none, none, none, none, none, some "abc", some 10⟩ =
      [("cursor", Json.str "abc"), ("limit", Json.num 10)] ∧
    (getTasksRun strf client ⟨none, none, none, none, none, some "abc", some 10⟩).2 =
      [ClientOp.get "/tasks" [("cursor", Json.str "abc"), ("limit", Json.num 10)]] ∧
    clientGetUrl "/tasks" [("cursor", Json.str "abc"), ("limit", Json.num 10)] =
      "https://api.todoist.com/rest/v2/tasks?cursor=abc&limit=10" := by
  refine ⟨?_, rfl, rfl, runJsonOp_snd strf _ _ client, by decide⟩
  induction params with
  | nil => rfl
  | cons kv rest ih =>
      by_cases h : jsTruthy kv.2 = true <;> simp [buildQueryPairs, h, ih]

/- ### Claim C8 -/

def c8Task : Json :=
  Json.obj [("content", Json.str "a"), ("description", Json.str "b"),
            ("due", Json.obj [("date", Json.str "")])]

/-- Claim C8 counterexample: a task whose `due` object is present with an
empty-string `date`.  The claim requires `due_date` to be the task's
`due.date` whenever `due` is present, but the source computes
`task.due?.date || null`, which maps the falsy empty string to null. -/
theorem formatTask_empty_due_date_null :
    jget (jget c8Task "due") "date" = Json.str "" ∧
    jget (formatTask c8Task) "due_date" = Json.null ∧
    Json.null ≠ Json.str "" :=
  ⟨rfl, rfl, fun h => Json.noConfusion h⟩

/-- Claim C8 (amended): on a successful list call returning an array of
tasks, `get_tasks_by_filter` serializes exactly the array of per-task
projections; each projection carries exactly the keys content,
description and due_date, where due_date is the task's `due.date` when
`due` is present and its `date` non-empty (truthy), and null otherwise
(`task.due?.date || null`). -/
theorem get_tasks_by_filter_projection_amended (strf : Json → String)
    (client : Client) (filter : String) (ts : List Json)
    (h : client (ClientOp.get "/tasks" [("filter", Json.str filter)]) =
      Except.ok (Json.arr ts)) :
    getTasksByFilterRun strf client filter =
      (okRes (strf (Json.arr (ts.map formatTask))),
       [ClientOp.get "/tasks" [("filter", Json.str filter)]]) ∧
    (∀ (c d date : String),
      formatTask (Json.obj [("content", Json.str c), ("description", Json.str d),
          ("due", Json.obj [("date", Json.str date)])]) =
        Json.obj [("content", Json.str c), ("description", Json.str d),
          ("due_date", if date == "" then Json.null else Json.str date)]) ∧
    (∀ (c d : String),
      formatTask (Json.obj [("content", Json.str c), ("description", Json.str d)]) =
        Json.obj [("content", Json.str c), ("description", Json.str d),
          ("due_date", Json.null)]) := by
  refine ⟨?_, ?_, fun c d => rfl⟩
  · show (match client (ClientOp.get "/tasks" [("filter", Json.str filter)]) with
      | Except.ok (Json.arr ts) =>
          (okRes (strf (Json.arr (ts.map formatTask))),
           [ClientOp.get "/tasks" [("filter", Json.str filter)]])
      | Except.ok _ =>
          (errRes "fetching tasks" "tasks.map is not a function",
           [ClientOp.get "/tasks" [("filter", Json.str filter)]])
      | Except.error e =>
          (errRes "fetching tasks" e,
           [ClientOp.get "/tasks" [("filter", Json.str filter)]])) = _
    rw [h]
  · intro c d date
    by_cases hd : (date == "") = true <;>
      simp [formatTask, jget, dueDateOf, orNull, jsTruthy, hd]

theorem get_tasks_by_filter_projection_amended_witness :
    getTasksByFilterRun (fun _ => "S") (fun _ => Except.ok (Json.arr [])) "today" =
      (okRes "S", [ClientOp.get "/tasks" [("filter", Json.str "today")]]) :=
  (get_tasks_by_filter_projection_amended (fun _ => "S")
    (fun _ => Except.ok (Json.arr [])) "today" [] rfl).1
